import Mathlib

/-!
Shallow embedding of `src/signer.py` and `src/uf2ify.py` from the
dabao-zephyr-cp-poc repository, with theorems checking the repository's
specification against the code.

Byte strings are modelled as `List Nat` (entries < 256 wherever the
serializers produce them).  Python exceptions are modelled with
`Except PyErr`.  Python slicing `b[i:j]` on byte strings is total and
just yields a shorter slice when the buffer is short; it is modelled
with `List.drop`/`List.take`, which have the same semantics for
non-negative indices.  The libsodium signing capability reached through
ctypes is external to the repository; it is modelled as an abstract
streaming interface `SignCap` over which the theorems quantify.
-/

set_option maxRecDepth 100000

namespace Dabao

/-- Decidable equality of Except results, for evaluating the embedded
operations on concrete inputs. -/
instance {ε α : Type} [DecidableEq ε] [DecidableEq α] : DecidableEq (Except ε α)
  | .ok a, .ok b =>
      if h : a = b then isTrue (by rw [h]) else isFalse (by simp [h])
  | .ok _, .error _ => isFalse (by simp)
  | .error _, .ok _ => isFalse (by simp)
  | .error e, .error f =>
      if h : e = f then isTrue (by rw [h]) else isFalse (by simp [h])

/-- Python exception kinds raised by the scripts. -/
inductive PyErr where
  | valueError (msg : String)
  | runtimeError (msg : String)
  | assertionError (msg : String)
  | structError
  deriving Repr, DecidableEq

/-- Model of a Python assert statement with message. -/
def pyAssert (p : Prop) [Decidable p] (msg : String) : Except PyErr Unit :=
  if p then .ok () else .error (.assertionError msg)

/-- The four little-endian bytes of a 32-bit word value. -/
def u32le (n : Nat) : List Nat :=
  [n % 256, n / 256 % 256, n / 65536 % 256, n / 16777216 % 256]

/-- Model of Python struct.pack with one little-endian u32 field: yields the
four little-endian bytes, raising struct.error for values out of u32 range. -/
def packU32 (n : Nat) : Except PyErr (List Nat) :=
  if n < 4294967296 then .ok (u32le n) else .error .structError

/-- Model of one fixed-width bytes field of struct.pack (format "Ns"):
truncate to the width and zero-pad on the right. -/
def padBytes (n : Nat) (b : List Nat) : List Nat :=
  b.take n ++ List.replicate (n - b.length) 0

/-- ASCII codes of a Lean string, modelling a Python bytes literal. -/
def pyBytes (s : String) : List Nat := s.data.map Char.toNat

/-- Value of one hexadecimal digit character, if valid. -/
def hexVal? (c : Char) : Option Nat :=
  if '0' ≤ c ∧ c ≤ '9' then some (c.toNat - 48)
  else if 'a' ≤ c ∧ c ≤ 'f' then some (c.toNat - 87)
  else if 'A' ≤ c ∧ c ≤ 'F' then some (c.toNat - 55)
  else none

/-- Decode a list of hex digit characters two at a time. -/
def hexPairs : List Char → Option (List Nat)
  | [] => some []
  | [_] => none
  | c1 :: c2 :: rest => do
      let hi ← hexVal? c1
      let lo ← hexVal? c2
      let tl ← hexPairs rest
      pure ((16 * hi + lo) :: tl)

/-- Model of Python bytes.fromhex: fails on an odd number of digits or an
invalid digit (the source strings contain no whitespace). -/
def bytesFromHex? (s : String) : Option (List Nat) := hexPairs s.data

/-- Shorthand for bytes.fromhex applied to a literal that is known to be
valid hex (every use in the sources is; each such fact is provable). -/
def hx (s : String) : List Nat := (bytesFromHex? s).getD []

/-- Value of one base64 alphabet character. -/
def b64val (c : Char) : Nat :=
  if 'A' ≤ c ∧ c ≤ 'Z' then c.toNat - 65
  else if 'a' ≤ c ∧ c ≤ 'z' then c.toNat - 71
  else if '0' ≤ c ∧ c ≤ '9' then c.toNat + 4
  else if c = '+' then 62 else 63

/-- Base64 decoding of complete 4-character groups (the dev key PEM body is
64 characters, a multiple of 4 with no padding). -/
def b64groups : List Char → List Nat
  | c1 :: c2 :: c3 :: c4 :: rest =>
      let n := b64val c1 * 262144 + b64val c2 * 4096 + b64val c3 * 64 + b64val c4
      n / 65536 :: n / 256 % 256 :: n % 256 :: b64groups rest
  | _ => []

/-- Big-endian 32-bit word value of the first four bytes. -/
def beWord : List Nat → Nat
  | b0 :: b1 :: b2 :: b3 :: _ => ((b0 * 256 + b1) * 256 + b2) * 256 + b3
  | _ => 0

/-- Model of Python struct.unpack with two big-endian u32 fields: requires
exactly 8 bytes of input. -/
def unpack_be_2I (b : List Nat) : Except PyErr (Nat × Nat) :=
  if b.length = 8 then .ok (beWord (b.take 4), beWord (b.drop 4))
  else .error .structError

/-! ## signer.py constants -/

/-- Body line of DEV_KEY_PEM in signer.py (the publicly disclosed
non-production developer key). -/
def DEV_KEY_PEM_LINE : String :=
  "MC4CAQAwBQYDK2VwBCIEIKindlyNoteThisIsADevKeyDontUseForProduction"

/-- DEV_KEY_RAW from signer.py: base64-decode the PEM body and keep the last
32 bytes (Python slice [-32:]). -/
def DEV_KEY_RAW : List Nat :=
  let d := b64groups DEV_KEY_PEM_LINE.data
  d.drop (d.length - 32)

/-- Length of the signature block including SignedBlob's header and
SealedData's header. -/
def SIGBLOCK_LEN : Nat := 768

/-- Length of SignedBlob's header prefix (includes signature, excludes
sealed_data). -/
def SBLOB_LEN : Nat := 132

/-- An ed25519 public key with its 4-byte ASCII role tag. -/
structure Pubkey where
  pk : List Nat
  tag : List Nat
  deriving Repr, DecidableEq

/-- Serialization of one Pubkey (its __bytes__ method): key then tag,
36 bytes. -/
def Pubkey.toBytes (p : Pubkey) : List Nat := p.pk ++ p.tag

/-- The fixed four-entry public key table from signer.py.  The fourth tag is
space-padded, not null-padded. -/
def PUBKEYS : List Pubkey :=
  [ ⟨hx (String.join (List.replicate 32 "00")), List.replicate 4 0⟩,
    ⟨hx "79135dc667aff4f7d352b90328788ebf92c786782138b377370b15194e312888",
      pyBytes "bao2"⟩,
    ⟨hx "80979929edd04e40124b52cae9ae54b24bdff72a7b8a004c41065bd1402078a7",
      pyBytes "beta"⟩,
    ⟨hx "1c9beae32aeac87507c18094387eff1c74614282affd8152d871352edf3f58bb",
      pyBytes "dev "⟩ ]

/-! ## The abstract signing capability (libsodium, external) -/

/-- Abstract model of the streaming ed25519ph signing capability called
through ctypes: an initial hashing state, and the three libsodium entry
points, each returning a C status code. The final call receives the 64-byte
libsodium secret key (seed plus public key) and yields the signature buffer. -/
structure SignCap (σ : Type) where
  state0 : σ
  ph_init : σ → Int × σ
  ph_update : σ → List Nat → Int × σ
  ph_final_create : σ → List Nat → Int × List Nat

/-- ed25519ph_sign from signer.py: check key lengths, build the 64-byte
libsodium secret key seed++pk, then init, update, final_create, raising
RuntimeError on any non-zero status. -/
def ed25519ph_sign {σ : Type} (na : SignCap σ)
    (secret_key_bytes public_key_bytes message : List Nat) :
    Except PyErr (List Nat) :=
  if secret_key_bytes.length ≠ 32 ∨ public_key_bytes.length ≠ 32 then
    .error (.valueError "sk_bytes and pk_bytes must be 32 bytes each")
  else
    let sk := secret_key_bytes ++ public_key_bytes
    let r1 := na.ph_init na.state0
    if r1.1 ≠ 0 then .error (.runtimeError "crypto_sign_ed25519ph_init() failed")
    else
      let r2 := na.ph_update r1.2 message
      if r2.1 ≠ 0 then
        .error (.runtimeError "crypto_sign_ed25519ph_update() failed")
      else
        let r3 := na.ph_final_create r2.2 sk
        if r3.1 ≠ 0 then
          .error (.runtimeError "crypto_sign_ed25519ph_final_create() failed")
        else .ok r3.2

/-! ## SealedData and SignedBlob -/

/-- The SealedData record of signer.py after construction. -/
structure SealedData where
  version : Nat
  magic : Nat × Nat
  signed_len : Nat
  function_code : Nat
  reserved : Nat
  min_semver : List Nat
  semver : List Nat
  pubkeys : List Nat
  pad : List Nat
  payload : List Nat
  deriving Repr, DecidableEq

/-- Python `x or d` for an optional integer argument: None and 0 are falsy. -/
def pyOrNat : Option Nat → Nat → Nat
  | none, d => d
  | some v, d => if v = 0 then d else v

/-- Python `x or d` for an optional bytes argument: None and the empty byte
string are falsy. -/
def pyOrBytes : Option (List Nat) → List Nat → List Nat
  | none, d => d
  | some v, d => if v = [] then d else v

/-- SealedData.__init__ from signer.py.  The magic pair is the big-endian
unpacking of the ASCII bytes of "yumyBao3"; the assert on the magic tuple
length is omitted as it is true by construction of the pair type. -/
def SealedData.init (payload : List Nat) (function_code : Option Nat)
    (min_semver semver : Option (List Nat)) : Except PyErr SealedData := do
  let version := 0x0100
  let magic ← unpack_be_2I (pyBytes "yumyBao3")
  let signed_len := SIGBLOCK_LEN - SBLOB_LEN + payload.length
  let function_code := pyOrNat function_code 6
  let reserved := 0
  let min_semver := pyOrBytes min_semver (List.replicate 16 0)
  let semver := pyOrBytes semver (List.replicate 16 0)
  let pubkeys := (PUBKEYS.map Pubkey.toBytes).flatten
  pyAssert (min_semver.length = 16) "expected min_semver length 16"
  pyAssert (semver.length = 16) "expected semver length 16"
  pyAssert (pubkeys.length = 36 * 4) "expected pubkeys length 144"
  pyAssert (SIGBLOCK_LEN = 768) "expected SIGBLOCK_LEN 768"
  let fields_len := 4 * 6 + 16 + 16 + 144
  let pad_len := SIGBLOCK_LEN - SBLOB_LEN - fields_len
  .ok { version, magic, signed_len, function_code, reserved, min_semver,
        semver, pubkeys, pad := List.replicate pad_len 0, payload }

/-- SealedData.__bytes__ from signer.py: pack the fixed fields little-endian
(format "<I 2I I I I 16s 16s 144s"), assert the fixed lengths, then append
pad and payload. -/
def SealedData.toBytes (sd : SealedData) : Except PyErr (List Nat) := do
  let b1 ← packU32 sd.version
  let b2 ← packU32 sd.magic.1
  let b3 ← packU32 sd.magic.2
  let b4 ← packU32 sd.signed_len
  let b5 ← packU32 sd.function_code
  let b6 ← packU32 sd.reserved
  let buf := b1 ++ b2 ++ b3 ++ b4 ++ b5 ++ b6 ++
    padBytes 16 sd.min_semver ++ padBytes 16 sd.semver ++ padBytes 144 sd.pubkeys
  pyAssert (buf.length = 200) "expected SealedData header fields length 200"
  pyAssert (sd.pad.length = 436) "expected SealedData pad length 436"
  .ok (buf ++ sd.pad ++ sd.payload)

/-- The SignedBlob record of signer.py after construction. -/
structure SignedBlob where
  jal_x0 : Nat
  signature : List Nat
  aad_len : Nat
  aad : List Nat
  sealed_data : List Nat
  deriving Repr, DecidableEq

/-- SignedBlob.__init__ from signer.py: sign the sealed data with the dev
secret key and the fourth table entry's public key, then fill the fixed
header fields. -/
def SignedBlob.init {σ : Type} (na : SignCap σ) (dev_sk sealed_data : List Nat) :
    Except PyErr SignedBlob := do
  let dev_pk := (PUBKEYS.getD 3 ⟨[], []⟩).pk
  let signature ← ed25519ph_sign na dev_sk dev_pk sealed_data
  pyAssert (signature.length = 64) "expected signature length 64"
  pyAssert (SBLOB_LEN = 132) "expected SBLOB_LEN 132"
  .ok { jal_x0 := 0x3000006f, signature, aad_len := 0,
        aad := List.replicate 60 0, sealed_data }

/-- SignedBlob.__bytes__ from signer.py: pack the header (format
"<I 64s I 60s"), assert its length, then append the sealed data. -/
def SignedBlob.toBytes (sb : SignedBlob) : Except PyErr (List Nat) := do
  let b1 ← packU32 sb.jal_x0
  let b2 := padBytes 64 sb.signature
  let b3 ← packU32 sb.aad_len
  let b4 := padBytes 60 sb.aad
  let buf := b1 ++ b2 ++ b3 ++ b4
  pyAssert (buf.length = SBLOB_LEN) "expected SignedBlob header length 132"
  .ok (buf ++ sb.sealed_data)

/-! ## main of signer.py -/

/-- The fixed 4-byte jump-instruction pattern the re-seal detector checks at
offset 0. -/
def JAL_BYTES : List Nat := hx "6f000030"

/-- The reversed SealedData magic the re-seal detector checks at offset
0x88. -/
def MAGIC_BYTES : List Nat := pyBytes "ymuy3oaB"

/-- The re-seal detector of main (signer.py): if the buffer starts with the
jump pattern and carries the reversed magic at offsets 0x88..0x90, slice
off the first SIGBLOCK_LEN bytes; otherwise keep the whole buffer. -/
def stripHeader (payload : List Nat) : List Nat :=
  let starts_with_jal := payload.take 4 = JAL_BYTES
  let matches_magic := (payload.drop 0x88).take 8 = MAGIC_BYTES
  if starts_with_jal ∧ matches_magic then payload.drop SIGBLOCK_LEN else payload

/-- min_semver constant used by main. -/
def MAIN_MIN_SEMVER : List Nat := hx "00000900080017030000000000000000"

/-- semver constant used by main. -/
def MAIN_SEMVER : List Nat := hx "000009001000FC09F229F54701000000"

/-- Secret key of the RFC 8032 section 7.3 test vector. -/
def TV_SECRET_KEY : List Nat :=
  hx "833fe62409237b9d62ec77587520911e9a759cec1d19755b7da901b96dca3d42"

/-- Public key of the RFC 8032 section 7.3 test vector. -/
def TV_PUBLIC_KEY : List Nat :=
  hx "ec172b93ad5e563bf4932c70e1245034c35467ef2efd4d64ebf819683467e2bf"

/-- Message of the RFC 8032 section 7.3 test vector. -/
def TV_MESSAGE : List Nat := hx "616263"

/-- The expected-signature hex digits embedded in test_ed25519ph (the four
32-digit string literals of signer.py concatenated). -/
def TV_SIGNATURE_HEX : String :=
  String.join
    [ "98a70222f0b8121aa9d30f813d683f80",
      "9e462b469c7ff87639499bb94e6dae41",
      "31f85042463c2a355a2003d062adf5aa",
      "a10b8c61e636062aaad11c2a26083406" ]

/-- The expected 64-byte signature constant of test_ed25519ph. -/
def TV_SIGNATURE : List Nat := hx TV_SIGNATURE_HEX

/-- test_ed25519ph from signer.py: sign the RFC 8032 section 7.3 test vector
and compare with the known-correct signature. -/
def test_ed25519ph {σ : Type} (na : SignCap σ) : Except PyErr Bool := do
  let buf ← ed25519ph_sign na TV_SECRET_KEY TV_PUBLIC_KEY TV_MESSAGE
  .ok (buf == TV_SIGNATURE)

/-- main from signer.py, after the argv check (CLI parsing and file I/O are
external collaborators): run the self-test assert, take the input file's
content, strip an existing header, build SealedData with main's fixed
version constants, wrap it in a SignedBlob with the dev key, and return the
bytes written to the output file.  The self-test assert comes first: on a
failing capability the run aborts with the same error for every file
content, before the content influences anything. -/
def signer_main {σ : Type} (na : SignCap σ) (file_content : List Nat) :
    Except PyErr (List Nat) := do
  let t ← test_ed25519ph na
  pyAssert (t = true) "ed25519 test vector signing failed"
  let payload := stripHeader file_content
  let sd ← SealedData.init payload none (some MAIN_MIN_SEMVER) (some MAIN_SEMVER)
  let blob ← sd.toBytes
  let signed_blob ← SignedBlob.init na DEV_KEY_RAW blob
  signed_blob.toBytes

/-! ## uf2ify.py -/

def BAOCHIP_1X_UF2_FAMILY : Nat := 0xa7d76373

def BAREMETAL_START : Nat := 0x60060000

def UF2_MAGIC_START0 : Nat := 0x0A324655

def UF2_MAGIC_START1 : Nat := 0x9E5D5157

def UF2_MAGIC_END : Nat := 0x0AB16F30

/-- One iteration of the uf2ify loop (uf2ify.py): slice a 256-byte chunk at
ptr = 256*blockno (zero-padding a short final chunk; for a full chunk the
appended padding is empty, matching the guarded Python append), compute
flags, pack the eight-word header (format "<8I"), and emit
header ++ chunk ++ datapad ++ end magic.  datapad has 512-256-32-4 bytes as
in the source. -/
def uf2Block (data : List Nat) (family_id app_start_addr nblocks blockno : Nat) :
    Except PyErr (List Nat) := do
  let ptr := 256 * blockno
  let chunk0 := (data.drop ptr).take 256
  let chunk := chunk0 ++ List.replicate (256 - chunk0.length) 0
  let flags := if family_id ≠ 0 then 0x2000 else 0
  let header ← ([UF2_MAGIC_START0, UF2_MAGIC_START1, flags,
      ptr + app_start_addr, 256, blockno, nblocks, family_id].mapM packU32)
  let tailMagic ← packU32 UF2_MAGIC_END
  .ok (header.flatten ++ chunk ++ List.replicate (512 - 256 - 32 - 4) 0 ++ tailMagic)

/-- uf2ify from uf2ify.py: nblocks = ceil(len(data)/256) blocks accumulated
in index order (the for-loop over range(nblocks) with out += block is the
concatenation of the per-index blocks). -/
def uf2ify (data : List Nat) (family_id app_start_addr : Nat) :
    Except PyErr (List Nat) := do
  let nblocks := (data.length + 255) / 256
  let blocks ← (List.range nblocks).mapM
    (uf2Block data family_id app_start_addr nblocks)
  .ok blocks.flatten

/-! ## Basic lemmas about the embedding -/

@[simp]
theorem except_bind_ok {α β ε : Type} (a : α) (f : α → Except ε β) :
    (Except.ok a >>= f) = f a := rfl

@[simp]
theorem except_bind_err {α β ε : Type} (e : ε) (f : α → Except ε β) :
    (Except.error e >>= f : Except ε β) = .error e := rfl

theorem pyAssert_ok {p : Prop} [Decidable p] (h : p) (msg : String) :
    pyAssert p msg = .ok () := if_pos h

theorem packU32_ok {n : Nat} {b : List Nat} (h : packU32 n = .ok b) :
    n < 4294967296 ∧ b = u32le n := by
  unfold packU32 at h
  split at h
  · exact ⟨by assumption, (Except.ok.injEq _ _ ▸ h).symm⟩
  · exact absurd h (by simp)

theorem packU32_of_lt {n : Nat} (h : n < 4294967296) :
    packU32 n = .ok (u32le n) := by
  unfold packU32
  exact if_pos h

@[simp]
theorem u32le_length (n : Nat) : (u32le n).length = 4 := rfl

theorem padBytes_length (n : Nat) (b : List Nat) : (padBytes n b).length = n := by
  simp only [padBytes, List.length_append, List.length_take, List.length_replicate]
  omega

theorem padBytes_of_length {n : Nat} {b : List Nat} (h : b.length = n) :
    padBytes n b = b := by
  have h1 : b.take n = b := List.take_of_length_le (by omega)
  simp [padBytes, h1, h]

/-- The magic words computed in SealedData.__init__. -/
theorem magic_words_value :
    unpack_be_2I (pyBytes "yumyBao3") = .ok (2037738873, 1113681715) := by
  decide

/-- The serialized public key table is 144 bytes. -/
theorem pubkeys_length : ((PUBKEYS.map Pubkey.toBytes).flatten).length = 144 := by
  decide

/-- The serialized magic words are the wire bytes of the reversed string. -/
theorem magic_wire_bytes :
    u32le 2037738873 ++ u32le 1113681715 = pyBytes "ymuy3oaB" := by
  rfl

/-- Success characterization of SealedData.init: the record it builds, and
the two length conditions its asserts impose on the version arguments. -/
theorem sealedData_init_ok {payload : List Nat} {fc : Option Nat}
    {ms sv : Option (List Nat)} {sd : SealedData}
    (h : SealedData.init payload fc ms sv = .ok sd) :
    sd = { version := 256, magic := (2037738873, 1113681715),
           signed_len := 636 + payload.length,
           function_code := pyOrNat fc 6, reserved := 0,
           min_semver := pyOrBytes ms (List.replicate 16 0),
           semver := pyOrBytes sv (List.replicate 16 0),
           pubkeys := (PUBKEYS.map Pubkey.toBytes).flatten,
           pad := List.replicate 436 0, payload := payload }
    ∧ (pyOrBytes ms (List.replicate 16 0)).length = 16
    ∧ (pyOrBytes sv (List.replicate 16 0)).length = 16 := by
  unfold SealedData.init at h
  rw [magic_words_value] at h
  simp only [except_bind_ok] at h
  rw [pyAssert_ok (p := ((PUBKEYS.map Pubkey.toBytes).flatten).length = 36 * 4)
    (by rfl), pyAssert_ok (p := SIGBLOCK_LEN = 768) (by rfl)] at h
  by_cases hms : (pyOrBytes ms (List.replicate 16 0)).length = 16
  · rw [pyAssert_ok hms] at h
    by_cases hsv : (pyOrBytes sv (List.replicate 16 0)).length = 16
    · rw [pyAssert_ok hsv] at h
      simp only [except_bind_ok] at h
      refine ⟨?_, hms, hsv⟩
      cases h
      rfl
    · rw [show pyAssert ((pyOrBytes sv (List.replicate 16 0)).length = 16)
        "expected semver length 16" = .error (.assertionError
        "expected semver length 16") from if_neg hsv] at h
      simp at h
  · rw [show pyAssert ((pyOrBytes ms (List.replicate 16 0)).length = 16)
      "expected min_semver length 16" = .error (.assertionError
      "expected min_semver length 16") from if_neg hms] at h
    simp at h

/-- Peel one packU32 step off a monadic serializer chain. -/
theorem bind_packU32_ok {α : Type} {n : Nat} {f : List Nat → Except PyErr α}
    {r : α} (h : (packU32 n >>= f) = .ok r) :
    n < 4294967296 ∧ f (u32le n) = .ok r := by
  unfold packU32 at h
  split at h
  · simp only [except_bind_ok] at h
    exact ⟨by assumption, h⟩
  · simp at h

/-- Peel one pyAssert step off a monadic serializer chain. -/
theorem bind_pyAssert_ok {α : Type} {p : Prop} [Decidable p] {msg : String}
    {f : Unit → Except PyErr α} {r : α}
    (h : (pyAssert p msg >>= f) = .ok r) : p ∧ f () = .ok r := by
  unfold pyAssert at h
  split at h
  · simp only [except_bind_ok] at h
    exact ⟨by assumption, h⟩
  · simp at h

/-- Invert a successful monadic bind. -/
theorem bind_ok_inv {α β : Type} {e : Except PyErr α} {f : α → Except PyErr β}
    {r : β} (h : (e >>= f) = .ok r) : ∃ a, e = .ok a ∧ f a = .ok r := by
  cases e with
  | ok a => exact ⟨a, rfl, h⟩
  | error e => simp at h

/-- Success characterization of SealedData.__bytes__: the u32 range
conditions struct.pack imposes, the pad-length assert, and the exact
serialized bytes. -/
theorem sealedData_toBytes_ok {sd : SealedData} {b : List Nat}
    (h : sd.toBytes = .ok b) :
    sd.version < 4294967296 ∧ sd.magic.1 < 4294967296 ∧
    sd.magic.2 < 4294967296 ∧ sd.signed_len < 4294967296 ∧
    sd.function_code < 4294967296 ∧ sd.reserved < 4294967296 ∧
    sd.pad.length = 436 ∧
    b = u32le sd.version ++ u32le sd.magic.1 ++ u32le sd.magic.2 ++
        u32le sd.signed_len ++ u32le sd.function_code ++ u32le sd.reserved ++
        padBytes 16 sd.min_semver ++ padBytes 16 sd.semver ++
        padBytes 144 sd.pubkeys ++ sd.pad ++ sd.payload := by
  unfold SealedData.toBytes at h
  obtain ⟨h1, h⟩ := bind_packU32_ok h
  obtain ⟨h2, h⟩ := bind_packU32_ok h
  obtain ⟨h3, h⟩ := bind_packU32_ok h
  obtain ⟨h4, h⟩ := bind_packU32_ok h
  obtain ⟨h5, h⟩ := bind_packU32_ok h
  obtain ⟨h6, h⟩ := bind_packU32_ok h
  simp only [] at h
  obtain ⟨_, h⟩ := bind_pyAssert_ok h
  obtain ⟨hpad, h⟩ := bind_pyAssert_ok h
  simp only [Except.ok.injEq] at h
  exact ⟨h1, h2, h3, h4, h5, h6, hpad, h.symm⟩

/-- Success characterization of SignedBlob.__init__: the signing call that
produced the signature, its 64-byte length, and the record built. -/
theorem signedBlob_init_ok {σ : Type} {na : SignCap σ}
    {dev_sk sealed_data : List Nat} {sb : SignedBlob}
    (h : SignedBlob.init na dev_sk sealed_data = .ok sb) :
    ed25519ph_sign na dev_sk (PUBKEYS.getD 3 ⟨[], []⟩).pk sealed_data =
      .ok sb.signature ∧
    sb.signature.length = 64 ∧
    sb.jal_x0 = 0x3000006f ∧ sb.aad_len = 0 ∧
    sb.aad = List.replicate 60 0 ∧ sb.sealed_data = sealed_data := by
  unfold SignedBlob.init at h
  simp only [] at h
  cases hs : ed25519ph_sign na dev_sk (PUBKEYS.getD 3 ⟨[], []⟩).pk sealed_data with
  | error e => rw [hs] at h; simp at h
  | ok s =>
    rw [hs] at h
    simp only [except_bind_ok] at h
    obtain ⟨hlen, h⟩ := bind_pyAssert_ok h
    obtain ⟨_, h⟩ := bind_pyAssert_ok h
    simp only [Except.ok.injEq] at h
    subst h
    exact ⟨rfl, hlen, rfl, rfl, rfl, rfl⟩

/-- Success characterization of SignedBlob.__bytes__. -/
theorem signedBlob_toBytes_ok {sb : SignedBlob} {b : List Nat}
    (h : sb.toBytes = .ok b) :
    sb.jal_x0 < 4294967296 ∧ sb.aad_len < 4294967296 ∧
    b = u32le sb.jal_x0 ++ padBytes 64 sb.signature ++ u32le sb.aad_len ++
        padBytes 60 sb.aad ++ sb.sealed_data := by
  unfold SignedBlob.toBytes at h
  obtain ⟨h1, h⟩ := bind_packU32_ok h
  try simp only [] at h
  obtain ⟨h2, h⟩ := bind_packU32_ok h
  try simp only [] at h
  obtain ⟨_, h⟩ := bind_pyAssert_ok h
  simp only [Except.ok.injEq] at h
  exact ⟨h1, h2, h.symm⟩

/-- Unfolded form of ed25519ph_sign as nested conditionals. -/
theorem ed_sign_eq {σ : Type} (na : SignCap σ) (sk pk msg : List Nat) :
    ed25519ph_sign na sk pk msg =
      if sk.length ≠ 32 ∨ pk.length ≠ 32 then
        .error (.valueError "sk_bytes and pk_bytes must be 32 bytes each")
      else if (na.ph_init na.state0).1 ≠ 0 then
        .error (.runtimeError "crypto_sign_ed25519ph_init() failed")
      else if (na.ph_update (na.ph_init na.state0).2 msg).1 ≠ 0 then
        .error (.runtimeError "crypto_sign_ed25519ph_update() failed")
      else if (na.ph_final_create (na.ph_update (na.ph_init na.state0).2 msg).2
          (sk ++ pk)).1 ≠ 0 then
        .error (.runtimeError "crypto_sign_ed25519ph_final_create() failed")
      else .ok (na.ph_final_create (na.ph_update (na.ph_init na.state0).2 msg).2
          (sk ++ pk)).2 := rfl

/-- The function code picked by SealedData.__init__ is never zero. -/
theorem pyOrNat_six_ne_zero (fc : Option Nat) : pyOrNat fc 6 ≠ 0 := by
  cases fc with
  | none => simp [pyOrNat]
  | some v =>
    simp only [pyOrNat]
    split
    · omega
    · assumption

/-! ## Claim theorems: re-seal detector -/

/-- C6: the re-seal detector strips the first 768 bytes and keeps the
remainder exactly when the first 4 bytes are the fixed jump pattern
6f 00 00 30 and the 8 bytes at offsets 0x88..0x8F are the reversed magic
"ymuy3oaB"; when either signal fails, the whole buffer is kept as a fresh
payload (no error is possible: the function is total). -/
theorem reseal_detection_iff (p : List Nat) :
    (p.take 4 = [0x6f, 0x00, 0x00, 0x30] ∧
        (p.drop 0x88).take 8 = pyBytes "ymuy3oaB" →
      stripHeader p = p.drop 768) ∧
    (¬(p.take 4 = [0x6f, 0x00, 0x00, 0x30] ∧
        (p.drop 0x88).take 8 = pyBytes "ymuy3oaB") →
      stripHeader p = p) := by
  constructor
  · intro h
    unfold stripHeader
    simp only []
    exact if_pos ⟨h.1, h.2⟩
  · intro h
    unfold stripHeader
    simp only []
    exact if_neg (fun hc => h ⟨hc.1, hc.2⟩)

/-- A concrete 144-byte buffer carrying both re-seal signals. -/
def wrappedProbe : List Nat :=
  [0x6f, 0x00, 0x00, 0x30] ++ List.replicate 132 0 ++ pyBytes "ymuy3oaB"

theorem reseal_detection_iff_witness :
    stripHeader wrappedProbe = wrappedProbe.drop 768 ∧
    stripHeader [1, 2, 3] = [1, 2, 3] :=
  ⟨(reseal_detection_iff wrappedProbe).1 (by decide),
   (reseal_detection_iff [1, 2, 3]).2 (by decide)⟩

/-- C10: the re-seal detection is total, and on any buffer shorter than 144
bytes the magic comparison at offsets 0x88..0x90 compares a slice shorter
than 8 bytes, so the buffer is always treated as a fresh payload. -/
theorem reseal_short_buffer_total (p : List Nat) (h : p.length < 144) :
    stripHeader p = p := by
  have hc : ¬(p.take 4 = JAL_BYTES ∧ (p.drop 0x88).take 8 = MAGIC_BYTES) := by
    rintro ⟨-, hm⟩
    have h8 : ((p.drop 0x88).take 8).length = 8 := by rw [hm]; decide
    simp only [List.length_take, List.length_drop] at h8
    omega
  unfold stripHeader
  simp only []
  exact if_neg hc

theorem reseal_short_buffer_total_witness :
    ([0x6f, 0x00, 0x00, 0x30] : List Nat).length < 144 ∧
    stripHeader [0x6f, 0x00, 0x00, 0x30] = [0x6f, 0x00, 0x00, 0x30] :=
  ⟨by decide, reseal_short_buffer_total [0x6f, 0x00, 0x00, 0x30] (by decide)⟩

/-! ## Claim theorems: SealedData construction defaults -/

/-- The record SealedData.init builds for a payload, a function-code
argument, and empty version byte strings. -/
def sealedOfEmptySemvers (payload : List Nat) (fc : Option Nat) : SealedData :=
  { version := 0x0100, magic := (2037738873, 1113681715),
    signed_len := 636 + payload.length, function_code := pyOrNat fc 6,
    reserved := 0, min_semver := List.replicate 16 0,
    semver := List.replicate 16 0,
    pubkeys := (PUBKEYS.map Pubkey.toBytes).flatten,
    pad := List.replicate 436 0, payload := payload }

/-- C9: SealedData's optional arguments default by Python falsiness, not by
absence: function_code = 0 yields a serialized function code field of 6 at
offsets 16..20; an empty min_semver or semver byte string is replaced by
the all-zero 16-byte default instead of being rejected; and no choice of
function_code argument can make the stored function code zero. -/
theorem sealed_defaults_falsiness :
    (∀ payload ms sv sd b, SealedData.init payload (some 0) ms sv = .ok sd →
        sd.toBytes = .ok b →
        sd.function_code = 6 ∧ (b.drop 16).take 4 = u32le 6) ∧
    (∀ payload fc sv sd, SealedData.init payload fc (some []) sv = .ok sd →
        sd.min_semver = List.replicate 16 0) ∧
    (∀ payload fc ms sd, SealedData.init payload fc ms (some []) = .ok sd →
        sd.semver = List.replicate 16 0) ∧
    (∀ payload fc, ∃ sd,
        SealedData.init payload fc (some []) (some []) = .ok sd) ∧
    (∀ payload fc ms sv sd, SealedData.init payload fc ms sv = .ok sd →
        sd.function_code ≠ 0) := by
  refine ⟨?_, ?_, ?_, ?_, ?_⟩
  · intro payload ms sv sd b hinit htob
    obtain ⟨hsd, -, -⟩ := sealedData_init_ok hinit
    subst hsd
    obtain ⟨-, -, -, -, -, -, -, hb⟩ := sealedData_toBytes_ok htob
    subst hb
    exact ⟨rfl, rfl⟩
  · intro payload fc sv sd hinit
    obtain ⟨hsd, -, -⟩ := sealedData_init_ok hinit
    subst hsd
    rfl
  · intro payload fc ms sd hinit
    obtain ⟨hsd, -, -⟩ := sealedData_init_ok hinit
    subst hsd
    rfl
  · intro payload fc
    refine ⟨sealedOfEmptySemvers payload fc, ?_⟩
    unfold SealedData.init
    rw [magic_words_value]
    simp only [except_bind_ok]
    rw [pyAssert_ok (p := (pyOrBytes (some []) (List.replicate 16 0)).length = 16)
        (by decide),
      pyAssert_ok (p := (pyOrBytes (some []) (List.replicate 16 0)).length = 16)
        (by decide),
      pyAssert_ok (p := ((PUBKEYS.map Pubkey.toBytes).flatten).length = 36 * 4)
        (by decide),
      pyAssert_ok (p := SIGBLOCK_LEN = 768) (by decide)]
    simp only [except_bind_ok]
    rfl
  · intro payload fc ms sv sd hinit
    obtain ⟨hsd, -, -⟩ := sealedData_init_ok hinit
    subst hsd
    exact pyOrNat_six_ne_zero fc

/-- Placeholder-free concrete SealedData used by witnesses. -/
def sdDefault : SealedData :=
  { version := 0, magic := (0, 0), signed_len := 0, function_code := 0,
    reserved := 0, min_semver := [], semver := [], pubkeys := [], pad := [],
    payload := [] }

/-- Concrete SealedData built with falsy arguments. -/
def sd9 : SealedData :=
  (SealedData.init [] (some 0) (some []) (some [])).toOption.getD sdDefault

/-- Serialization of sd9. -/
def sd9bytes : List Nat := sd9.toBytes.toOption.getD []

theorem sealed_defaults_falsiness_witness :
    (sd9.function_code = 6 ∧ (sd9bytes.drop 16).take 4 = u32le 6) ∧
    sd9.min_semver = List.replicate 16 0 ∧
    sd9.semver = List.replicate 16 0 ∧
    sd9.function_code ≠ 0 :=
  ⟨sealed_defaults_falsiness.1 [] (some []) (some []) sd9 sd9bytes (by rfl)
      (by rfl),
   sealed_defaults_falsiness.2.1 [] (some 0) (some []) sd9 (by rfl),
   sealed_defaults_falsiness.2.2.1 [] (some 0) (some []) sd9 (by rfl),
   sealed_defaults_falsiness.2.2.2.2 [] (some 0) (some []) (some []) sd9
      (by rfl)⟩

/-! ## Claim theorems: signing error kinds -/

/-- C8: ed25519ph_sign raises the key-length ValueError exactly when a key
is not 32 bytes, and then the result does not depend on the signing
capability (it is never invoked); given good key lengths it raises a
RuntimeError exactly when some stage reports a non-zero status; an error
always means no signature is returned. -/
theorem sign_error_kinds {σ : Type} (na : SignCap σ) (sk pk msg : List Nat) :
    (ed25519ph_sign na sk pk msg =
        .error (.valueError "sk_bytes and pk_bytes must be 32 bytes each") ↔
      sk.length ≠ 32 ∨ pk.length ≠ 32) ∧
    ((sk.length ≠ 32 ∨ pk.length ≠ 32) → ∀ (σ' : Type) (na' : SignCap σ'),
      ed25519ph_sign na' sk pk msg = ed25519ph_sign na sk pk msg) ∧
    ((∃ m, ed25519ph_sign na sk pk msg = .error (.runtimeError m)) ↔
      (sk.length = 32 ∧ pk.length = 32) ∧
        ((na.ph_init na.state0).1 ≠ 0 ∨
         ((na.ph_init na.state0).1 = 0 ∧
           (na.ph_update (na.ph_init na.state0).2 msg).1 ≠ 0) ∨
         ((na.ph_init na.state0).1 = 0 ∧
           (na.ph_update (na.ph_init na.state0).2 msg).1 = 0 ∧
           (na.ph_final_create (na.ph_update (na.ph_init na.state0).2 msg).2
             (sk ++ pk)).1 ≠ 0))) ∧
    (∀ e, ed25519ph_sign na sk pk msg = .error e →
      ∀ s, ed25519ph_sign na sk pk msg ≠ .ok s) := by
  refine ⟨?_, ?_, ?_, ?_⟩
  · rw [ed_sign_eq]
    split_ifs with h1 h2 h3 h4
    · exact ⟨fun _ => h1, fun _ => rfl⟩
    · exact ⟨fun he => by simp at he, fun hl => absurd hl h1⟩
    · exact ⟨fun he => by simp at he, fun hl => absurd hl h1⟩
    · exact ⟨fun he => by simp at he, fun hl => absurd hl h1⟩
    · exact ⟨fun he => by simp at he, fun hl => absurd hl h1⟩
  · intro h σ' na'
    rw [ed_sign_eq, ed_sign_eq, if_pos h, if_pos h]
  · rw [ed_sign_eq]
    split_ifs with h1 h2 h3 h4
    · constructor
      · rintro ⟨m, hm⟩
        simp at hm
      · rintro ⟨⟨hs, hp⟩, -⟩
        rcases h1 with h | h
        · exact absurd hs h
        · exact absurd hp h
    · push_neg at h1
      exact ⟨fun _ => ⟨h1, Or.inl h2⟩, fun _ => ⟨_, rfl⟩⟩
    · push_neg at h1 h2
      exact ⟨fun _ => ⟨h1, Or.inr (Or.inl ⟨h2, h3⟩)⟩, fun _ => ⟨_, rfl⟩⟩
    · push_neg at h1 h2 h3
      exact ⟨fun _ => ⟨h1, Or.inr (Or.inr ⟨h2, h3, h4⟩)⟩, fun _ => ⟨_, rfl⟩⟩
    · push_neg at h1 h2 h3 h4
      constructor
      · rintro ⟨m, hm⟩
        simp at hm
      · rintro ⟨-, h | ⟨-, h⟩ | ⟨-, -, h⟩⟩
        · exact absurd h2 h
        · exact absurd h3 h
        · exact absurd h4 h
  · intro e he s hs
    rw [he] at hs
    simp at hs

/-- A signing capability whose init stage reports failure. -/
def failCap : SignCap Unit :=
  { state0 := (), ph_init := fun s => (1, s), ph_update := fun s _ => (0, s),
    ph_final_create := fun _ _ => (0, []) }

theorem sign_error_kinds_witness :
    ed25519ph_sign failCap [] [] [] =
      .error (.valueError "sk_bytes and pk_bytes must be 32 bytes each") ∧
    (∃ m, ed25519ph_sign failCap (List.replicate 32 0) (List.replicate 32 0)
        [] = .error (.runtimeError m)) :=
  ⟨(sign_error_kinds failCap [] [] []).1.mpr (by decide),
   (sign_error_kinds failCap (List.replicate 32 0) (List.replicate 32 0)
       []).2.2.1.mpr ⟨by decide, Or.inl (by decide)⟩⟩

/-! ## Claim theorems: the embedded self-test (C7) -/

/-- The signature value the specification states for the RFC 8032 section
7.3 known-answer test, exactly as written there (one hex digit short of 64
bytes: the code's constant has "adf5aa" followed by "a10b8c61..."). -/
def SPEC_CLAIMED_TV_SIGNATURE_HEX : String :=
  String.join
    [ "98a70222f0b8121aa9d30f813d683f80",
      "9e462b469c7ff87639499bb94e6dae41",
      "31f85042463c2a355a2003d062adf5aa",
      "10b8c61e636062aaad11c2a26083406" ]

/-- C7 counterexample: the spec's stated signature value has 127 hex digits,
so it denotes no 64-byte string at all (bytes.fromhex rejects it), and it
differs from the code's embedded 64-byte constant. -/
theorem spec_signature_hex_mismatch :
    SPEC_CLAIMED_TV_SIGNATURE_HEX.length = 127 ∧
    bytesFromHex? SPEC_CLAIMED_TV_SIGNATURE_HEX = none ∧
    bytesFromHex? TV_SIGNATURE_HEX = some TV_SIGNATURE ∧
    TV_SIGNATURE.length = 64 ∧
    SPEC_CLAIMED_TV_SIGNATURE_HEX ≠ TV_SIGNATURE_HEX := by
  refine ⟨by decide, by decide, ?_, by decide, by decide⟩
  unfold TV_SIGNATURE hx
  decide

/-- C7 (amended): the self-test passes exactly when signing the RFC 8032
section 7.3 vector yields the code's embedded 64-byte constant, and when it
does not pass, main aborts with an error that is independent of the input
file content (the self-test runs before the content is used in any way). -/
theorem selftest_known_answer {σ : Type} (na : SignCap σ) :
    (test_ed25519ph na = .ok true ↔
      ed25519ph_sign na TV_SECRET_KEY TV_PUBLIC_KEY TV_MESSAGE =
        .ok TV_SIGNATURE) ∧
    (test_ed25519ph na ≠ .ok true → ∀ content : List Nat,
      (∃ e, signer_main na content = .error e) ∧
      signer_main na content = signer_main na []) := by
  constructor
  · unfold test_ed25519ph
    cases hs : ed25519ph_sign na TV_SECRET_KEY TV_PUBLIC_KEY TV_MESSAGE with
    | error e => simp
    | ok s => simp [beq_iff_eq]
  · intro h content
    unfold signer_main
    cases ht : test_ed25519ph na with
    | error e =>
      simp only [except_bind_err]
      exact ⟨⟨e, rfl⟩, trivial⟩
    | ok t =>
      cases t with
      | true => exact absurd ht h
      | false =>
        simp only [except_bind_ok]
        rw [show pyAssert (false = true) "ed25519 test vector signing failed" =
          .error (.assertionError "ed25519 test vector signing failed") from
          rfl]
        simp only [except_bind_err]
        exact ⟨⟨_, rfl⟩, trivial⟩

theorem selftest_known_answer_witness :
    (∃ e, signer_main failCap [1, 2, 3] = .error e) ∧
    signer_main failCap [1, 2, 3] = signer_main failCap [] :=
  (selftest_known_answer failCap).2 (by decide) [1, 2, 3]

/-! ## Claim theorems: signed-image layout (C1) -/

/-- C1 counterexample input: the serialized SealedData for the empty
payload, whose length is the complete fixed header before the payload. -/
def sealedEmpty : SealedData :=
  (SealedData.init [] none none none).toOption.getD sdDefault

/-- Serialization of sealedEmpty. -/
def sealedEmptyBytes : List Nat := sealedEmpty.toBytes.toOption.getD []

/-- C1 counterexample: the fixed header before the payload in a serialized
SealedData is 200 + 436 = 636 bytes, not 564 as the claim states. -/
theorem sealed_fixed_header_is_636_not_564 :
    SealedData.init [] none none none = .ok sealedEmpty ∧
    sealedEmpty.toBytes = .ok sealedEmptyBytes ∧
    sealedEmpty.payload = [] ∧
    sealedEmptyBytes.length = 636 ∧
    ¬sealedEmptyBytes.length = 564 := by
  refine ⟨by rfl, by rfl, by rfl, ?_, ?_⟩ <;> decide

/-- C1 (amended): for every payload and optional metadata accepted by the
constructor, the serialized SignedBlob is the 132-byte outer header (the
little-endian u32 0x3000006f, the 64-byte signature, a zero u32 aad length,
60 zero bytes) followed by the 200 fixed SealedData field bytes (version
0x0100; the magic words, which are the big-endian reinterpretation of
"yumyBao3" and serialize to the wire bytes "ymuy3oaB"; signed_len =
768 - 132 + len(payload); function code; reserved 0; 16-byte min_semver;
16-byte semver; the 144-byte public key table), then 436 zero padding bytes
(fixed header before payload 200 + 436 = 636 bytes, not 564), then the
payload unchanged, for a total of 768 + len(payload) bytes. -/
theorem signed_image_layout {σ : Type} (na : SignCap σ)
    (dev_sk payload : List Nat) (fc : Option Nat) (ms sv : Option (List Nat))
    (sd : SealedData) (sbytes : List Nat) (sb : SignedBlob) (out : List Nat)
    (hinit : SealedData.init payload fc ms sv = .ok sd)
    (htob : sd.toBytes = .ok sbytes)
    (hsb : SignedBlob.init na dev_sk sbytes = .ok sb)
    (hout : sb.toBytes = .ok out) :
    out = u32le 0x3000006f ++ sb.signature ++ u32le 0 ++ List.replicate 60 0 ++
      (u32le 0x0100 ++ pyBytes "ymuy3oaB" ++ u32le (636 + payload.length) ++
        u32le sd.function_code ++ u32le 0 ++ sd.min_semver ++ sd.semver ++
        sd.pubkeys) ++ List.replicate 436 0 ++ payload ∧
    sb.signature.length = 64 ∧
    sd.signed_len = 768 - 132 + payload.length ∧
    sd.magic.1 = beWord (pyBytes "yumyBao3") ∧
    sd.magic.2 = beWord ((pyBytes "yumyBao3").drop 4) ∧
    u32le sd.magic.1 ++ u32le sd.magic.2 = pyBytes "ymuy3oaB" ∧
    (u32le 0x3000006f ++ sb.signature ++ u32le 0 ++
      List.replicate 60 0).length = 132 ∧
    (u32le 0x0100 ++ pyBytes "ymuy3oaB" ++ u32le (636 + payload.length) ++
      u32le sd.function_code ++ u32le 0 ++ sd.min_semver ++ sd.semver ++
      sd.pubkeys).length = 200 ∧
    sd.min_semver.length = 16 ∧ sd.semver.length = 16 ∧
    sd.pubkeys.length = 144 ∧
    out.length = 768 + payload.length := by
  obtain ⟨hsd, hms, hsv⟩ := sealedData_init_ok hinit
  subst hsd
  obtain ⟨-, -, -, -, -, -, -, hbytes⟩ := sealedData_toBytes_ok htob
  obtain ⟨hsig, hlen, -, -, -, -⟩ := signedBlob_init_ok hsb
  obtain ⟨-, -, houteq⟩ := signedBlob_toBytes_ok hout
  obtain ⟨hjal, haadlen, haad, hsealed⟩ :
      sb.jal_x0 = 0x3000006f ∧ sb.aad_len = 0 ∧
      sb.aad = List.replicate 60 0 ∧ sb.sealed_data = sbytes :=
    (signedBlob_init_ok hsb).2.2
  rw [hjal, haadlen, haad, hsealed, hbytes,
    padBytes_of_length hlen,
    padBytes_of_length (List.length_replicate 60 0)] at houteq
  simp only [] at houteq
  have hmagic : (u32le 2037738873 ++ u32le 1113681715 : List Nat) =
      pyBytes "ymuy3oaB" := magic_wire_bytes
  have hpb : padBytes 16 (pyOrBytes ms (List.replicate 16 0)) =
      pyOrBytes ms (List.replicate 16 0) := padBytes_of_length hms
  have hpb2 : padBytes 16 (pyOrBytes sv (List.replicate 16 0)) =
      pyOrBytes sv (List.replicate 16 0) := padBytes_of_length hsv
  have hpk : padBytes 144 ((PUBKEYS.map Pubkey.toBytes).flatten) =
      (PUBKEYS.map Pubkey.toBytes).flatten := padBytes_of_length pubkeys_length
  rw [hpb, hpb2, hpk] at houteq
  have hmagw : ((pyBytes "ymuy3oaB" : List Nat)).length = 8 := by decide
  refine ⟨?_, hlen, by rfl, by rfl, by rfl, hmagic, ?_, ?_, hms, hsv,
    pubkeys_length, ?_⟩
  · rw [houteq, ← hmagic]
    simp [List.append_assoc]
  · simp only [List.length_append, u32le_length, List.length_replicate, hlen]
  · simp only [List.length_append, u32le_length, hmagw, hms, hsv,
      pubkeys_length]
  · rw [houteq]
    simp only [List.length_append, u32le_length, List.length_replicate, hlen,
      hms, hsv, pubkeys_length]
    omega

/-- A signing capability with all-zero statuses and a fixed 64-byte
all-zero signature. -/
def okCap : SignCap Unit :=
  { state0 := (), ph_init := fun s => (0, s), ph_update := fun s _ => (0, s),
    ph_final_create := fun _ _ => (0, List.replicate 64 0) }

/-- Concrete SignedBlob wrapping sealedEmptyBytes under okCap. -/
def sbW : SignedBlob :=
  (SignedBlob.init okCap (List.replicate 32 0) sealedEmptyBytes).toOption.getD
    ⟨0, [], 0, [], []⟩

/-- Serialization of sbW. -/
def outW : List Nat := sbW.toBytes.toOption.getD []

theorem signed_image_layout_witness : outW.length = 768 :=
  (signed_image_layout okCap (List.replicate 32 0) [] none none none
    sealedEmpty sealedEmptyBytes sbW outW (by rfl) (by rfl) (by rfl)
    (by rfl)).2.2.2.2.2.2.2.2.2.2.2

/-! ## Claim theorems: idempotent re-seal (C3) -/

/-- Any buffer of the signed-image shape is recognized by the re-seal
detector, which recovers exactly its embedded payload. -/
theorem strip_of_wrapped {sig m16 s16 payload : List Nat} {slen fcv : Nat}
    (hsig : sig.length = 64) (hm : m16.length = 16) (hs : s16.length = 16)
    (w : List Nat)
    (hw : w = u32le 0x3000006f ++ sig ++ u32le 0 ++ List.replicate 60 0 ++
      (u32le 0x0100 ++ u32le 2037738873 ++ u32le 1113681715 ++ u32le slen ++
        u32le fcv ++ u32le 0 ++ m16 ++ s16 ++
        (PUBKEYS.map Pubkey.toBytes).flatten ++ List.replicate 436 0 ++
        payload)) :
    stripHeader w = payload := by
  have h136 : w =
      (u32le 0x3000006f ++ sig ++ u32le 0 ++ List.replicate 60 0 ++
        u32le 0x0100) ++
      (pyBytes "ymuy3oaB" ++ (u32le slen ++ u32le fcv ++ u32le 0 ++ m16 ++
        s16 ++ (PUBKEYS.map Pubkey.toBytes).flatten ++
        List.replicate 436 0 ++ payload)) := by
    rw [hw, ← magic_wire_bytes]
    simp [List.append_assoc]
  have hlen136 : (u32le 0x3000006f ++ sig ++ u32le 0 ++ List.replicate 60 0 ++
      u32le 0x0100).length = 136 := by
    simp [List.length_append, hsig]
  have c1 : w.take 4 = JAL_BYTES := by rw [hw]; rfl
  have c2 : (w.drop 0x88).take 8 = MAGIC_BYTES := by
    rw [h136, List.drop_left' hlen136,
      List.take_left' (show (pyBytes "ymuy3oaB").length = 8 by decide)]
    rfl
  have h768 : w =
      (u32le 0x3000006f ++ sig ++ u32le 0 ++ List.replicate 60 0 ++
        u32le 0x0100 ++ u32le 2037738873 ++ u32le 1113681715 ++ u32le slen ++
        u32le fcv ++ u32le 0 ++ m16 ++ s16 ++
        (PUBKEYS.map Pubkey.toBytes).flatten ++ List.replicate 436 0) ++
      payload := by
    rw [hw]
    simp [List.append_assoc]
  have hlen768 : (u32le 0x3000006f ++ sig ++ u32le 0 ++
      List.replicate 60 0 ++ u32le 0x0100 ++ u32le 2037738873 ++
      u32le 1113681715 ++ u32le slen ++ u32le fcv ++ u32le 0 ++ m16 ++ s16 ++
      (PUBKEYS.map Pubkey.toBytes).flatten ++
      List.replicate 436 0).length = 768 := by
    simp only [List.length_append, u32le_length, List.length_replicate, hsig,
      hm, hs, pubkeys_length]
  unfold stripHeader
  simp only []
  rw [if_pos ⟨c1, c2⟩, h768]
  exact List.drop_left' hlen768

/-- A successful run of signer.py's main produces an image whose embedded
payload is exactly the stripped input payload. -/
theorem signer_main_ok_strip {σ : Type} (na : SignCap σ) (c w : List Nat)
    (h : signer_main na c = .ok w) : stripHeader w = stripHeader c := by
  unfold signer_main at h
  obtain ⟨t, -, h⟩ := bind_ok_inv h
  obtain ⟨-, h⟩ := bind_pyAssert_ok h
  simp only [] at h
  obtain ⟨sd, hinit, h⟩ := bind_ok_inv h
  obtain ⟨sbytes, htob, h⟩ := bind_ok_inv h
  obtain ⟨sb, hsb, hout⟩ := bind_ok_inv h
  obtain ⟨hsd, hms, hsv⟩ := sealedData_init_ok hinit
  subst hsd
  obtain ⟨-, -, -, -, -, -, -, hbytes⟩ := sealedData_toBytes_ok htob
  obtain ⟨-, hlen, hjal, haadlen, haad, hsealed⟩ := signedBlob_init_ok hsb
  obtain ⟨-, -, houteq⟩ := signedBlob_toBytes_ok hout
  rw [hjal, haadlen, haad, hsealed, hbytes, padBytes_of_length hlen,
    padBytes_of_length (List.length_replicate 60 0)] at houteq
  simp only [] at houteq
  rw [padBytes_of_length hms, padBytes_of_length hsv,
    padBytes_of_length pubkeys_length] at houteq
  rw [strip_of_wrapped hlen hms hsv w (by rw [houteq]; try simp
    [List.append_assoc])]

/-- C3: re-sealing is idempotent: with sign the whole signing pipeline
(detector then wrapper) and unwrap the detector, for any input x, when
y = sign(unwrap x) and z = sign(y) both succeed, unwrap z = unwrap y (the
re-signed image embeds the payload of the original unwrapped input, not a
double-wrapped image), and unwrap y = unwrap(unwrap x). -/
theorem reseal_idempotent {σ : Type} (na : SignCap σ) (x y z : List Nat)
    (h1 : signer_main na (stripHeader x) = .ok y)
    (h2 : signer_main na y = .ok z) :
    stripHeader z = stripHeader y ∧
    stripHeader y = stripHeader (stripHeader x) :=
  ⟨signer_main_ok_strip na y z h2,
   signer_main_ok_strip na (stripHeader x) y h1⟩

/-- A signing capability that returns the RFC 8032 test signature, so the
embedded self-test passes. -/
def vectorCap : SignCap Unit :=
  { state0 := (), ph_init := fun s => (0, s), ph_update := fun s _ => (0, s),
    ph_final_create := fun _ _ => (0, TV_SIGNATURE) }

/-- First signing pass over the empty payload under vectorCap. -/
def y3 : List Nat := (signer_main vectorCap []).toOption.getD []

/-- Second signing pass, over the already-signed image y3. -/
def z3 : List Nat := (signer_main vectorCap y3).toOption.getD []

theorem reseal_idempotent_witness :
    stripHeader z3 = stripHeader y3 ∧
    stripHeader y3 = stripHeader (stripHeader []) :=
  reseal_idempotent vectorCap [] y3 z3 (by rfl) (by rfl)

/-! ## Lemmas about the block packer -/

/-- A successful mapM relates inputs and outputs pointwise. -/
theorem mapM_ok_forall {α β : Type} {f : α → Except PyErr β} :
    ∀ {l : List α} {bs : List β}, l.mapM f = .ok bs →
      List.Forall₂ (fun a b => f a = .ok b) l bs := by
  intro l
  induction l with
  | nil =>
    intro bs h
    rw [List.mapM_nil] at h
    rw [show (pure [] : Except PyErr (List β)) = Except.ok [] from rfl] at h
    cases h
    exact List.Forall₂.nil
  | cons a l ih =>
    intro bs h
    rw [List.mapM_cons] at h
    obtain ⟨b, hb, h⟩ := bind_ok_inv h
    obtain ⟨bs', hbs', h⟩ := bind_ok_inv h
    rw [show (pure (b :: bs') : Except PyErr (List β)) =
      Except.ok (b :: bs') from rfl] at h
    cases h
    exact List.Forall₂.cons hb (ih hbs')

/-- Length of a flattened list of uniform-length lists. -/
theorem flatten_length_uniform {k : Nat} :
    ∀ {bs : List (List Nat)}, (∀ b ∈ bs, b.length = k) →
      bs.flatten.length = k * bs.length := by
  intro bs
  induction bs with
  | nil => intro _; simp
  | cons b bs ih =>
    intro h
    rw [List.flatten_cons, List.length_append,
      ih (fun x hx => h x (List.mem_cons_of_mem _ hx)),
      h b (List.mem_cons_self _ _), List.length_cons, Nat.mul_succ]
    omega

/-- Dropping to a block boundary in a flattened list of uniform-length
lists exposes that block. -/
theorem flatten_drop_uniform {k : Nat} :
    ∀ (bs : List (List Nat)), (∀ b ∈ bs, b.length = k) →
      ∀ i (hi : i < bs.length),
        bs.flatten.drop (k * i) = bs.get ⟨i, hi⟩ ++ (bs.drop (i + 1)).flatten := by
  intro bs
  induction bs with
  | nil => intro _ i hi; simp at hi
  | cons b bs ih =>
    intro h i hi
    cases i with
    | zero => simp [List.flatten_cons]
    | succ i =>
      have hb : b.length = k := h b (List.mem_cons_self _ _)
      have hrest : ∀ x ∈ bs, x.length = k :=
        fun x hx => h x (List.mem_cons_of_mem _ hx)
      have hik : i < bs.length := by
        simp only [List.length_cons] at hi
        omega
      rw [List.flatten_cons, List.drop_append_eq_append_drop,
        List.drop_eq_nil_of_le (by rw [hb, Nat.mul_succ]; omega),
        List.nil_append, hb,
        show k * (i + 1) - k = k * i by rw [Nat.mul_succ]; omega,
        ih hrest i hik]
      rfl

/-- The padded 256-byte chunk of a block always has length 256. -/
theorem chunk_pad_length (data : List Nat) (p : Nat) :
    ((data.drop p).take 256 ++
      List.replicate (256 - ((data.drop p).take 256).length) 0).length = 256 := by
  simp only [List.length_append, List.length_take, List.length_drop,
    List.length_replicate]
  omega

/-- Success characterization of one uf2ify loop iteration: the u32 range
conditions struct.pack imposes and the exact 512 record bytes, with the
220-byte zero pad between the data chunk and the end magic. -/
theorem uf2Block_ok {data : List Nat} {fam app nblocks blockno : Nat}
    {r : List Nat} (h : uf2Block data fam app nblocks blockno = .ok r) :
    256 * blockno + app < 4294967296 ∧ blockno < 4294967296 ∧
    nblocks < 4294967296 ∧ fam < 4294967296 ∧
    r = u32le UF2_MAGIC_START0 ++ u32le UF2_MAGIC_START1 ++
        u32le (if fam ≠ 0 then 0x2000 else 0) ++
        u32le (256 * blockno + app) ++ u32le 256 ++ u32le blockno ++
        u32le nblocks ++ u32le fam ++
        ((data.drop (256 * blockno)).take 256 ++
          List.replicate (256 - ((data.drop (256 * blockno)).take 256).length)
            0) ++
        List.replicate 220 0 ++ u32le UF2_MAGIC_END := by
  unfold uf2Block at h
  simp only [List.mapM_cons, List.mapM_nil, bind_assoc, pure_bind] at h
  obtain ⟨-, h⟩ := bind_packU32_ok h
  obtain ⟨-, h⟩ := bind_packU32_ok h
  obtain ⟨-, h⟩ := bind_packU32_ok h
  obtain ⟨h4, h⟩ := bind_packU32_ok h
  obtain ⟨-, h⟩ := bind_packU32_ok h
  obtain ⟨h6, h⟩ := bind_packU32_ok h
  obtain ⟨h7, h⟩ := bind_packU32_ok h
  obtain ⟨h8, h⟩ := bind_packU32_ok h
  obtain ⟨-, h⟩ := bind_packU32_ok h
  simp only [Except.ok.injEq] at h
  subst h
  refine ⟨h4, h6, h7, h8, ?_⟩
  simp [List.flatten_cons, List.append_assoc]

/-- Success characterization of uf2ify: the per-index blocks and the
flattened output. -/
theorem uf2ify_ok {data : List Nat} {fam app : Nat} {out : List Nat}
    (h : uf2ify data fam app = .ok out) :
    ∃ bs, (List.range ((data.length + 255) / 256)).mapM
        (uf2Block data fam app ((data.length + 255) / 256)) = .ok bs ∧
      out = bs.flatten := by
  unfold uf2ify at h
  simp only [] at h
  obtain ⟨bs, hbs, h⟩ := bind_ok_inv h
  simp only [Except.ok.injEq] at h
  exact ⟨bs, hbs, h.symm⟩

/-- Master record lemma for uf2ify: the output length and the exact bytes
of every 512-byte record. -/
theorem uf2ify_records {data : List Nat} {fam app : Nat} {out : List Nat}
    {n : Nat} (hn : n = (data.length + 255) / 256)
    (h : uf2ify data fam app = .ok out) :
    out.length = 512 * n ∧
    ∀ i, i < n → (out.drop (512 * i)).take 512 =
      u32le UF2_MAGIC_START0 ++ u32le UF2_MAGIC_START1 ++
      u32le (if fam ≠ 0 then 0x2000 else 0) ++ u32le (256 * i + app) ++
      u32le 256 ++ u32le i ++ u32le n ++ u32le fam ++
      ((data.drop (256 * i)).take 256 ++
        List.replicate (256 - ((data.drop (256 * i)).take 256).length) 0) ++
      List.replicate 220 0 ++ u32le UF2_MAGIC_END := by
  subst hn
  obtain ⟨bs, hmap, hflat⟩ := uf2ify_ok h
  have hf2 := mapM_ok_forall hmap
  have hlen := hf2.length_eq
  rw [List.length_range] at hlen
  have hget := (List.forall₂_iff_get.mp hf2).2
  have hblock : ∀ i (hi : i < bs.length),
      uf2Block data fam app ((data.length + 255) / 256) i =
        .ok (bs.get ⟨i, hi⟩) := by
    intro i hi
    have h1 : i < (List.range ((data.length + 255) / 256)).length := by
      rw [List.length_range]
      omega
    have h2 := hget i h1 hi
    rwa [List.get_range] at h2
  have hall : ∀ b ∈ bs, b.length = 512 := by
    intro b hb
    obtain ⟨⟨i, hi⟩, hbi⟩ := List.mem_iff_get.mp hb
    obtain ⟨-, -, -, -, hr⟩ := uf2Block_ok (hblock i hi)
    rw [← hbi, hr]
    simp only [List.length_append, u32le_length, List.length_replicate,
      List.length_take, List.length_drop]
    omega
  constructor
  · rw [hflat, flatten_length_uniform hall, hlen]
  · intro i hi
    have hib : i < bs.length := by omega
    rw [hflat, flatten_drop_uniform bs hall i hib,
      List.take_left' (hall _ (List.get_mem bs i hib)),
      (uf2Block_ok (hblock i hib)).2.2.2.2]

/-- Concatenating the zero-padded 256-byte chunks of the first n blocks
yields the first 256*n data bytes, zero-padded to 256*n. -/
theorem chunks_flatten (data : List Nat) :
    ∀ n : Nat, ((List.range n).map (fun i =>
        (data.drop (256 * i)).take 256 ++
        List.replicate (256 - ((data.drop (256 * i)).take 256).length)
          0)).flatten =
      data.take (256 * n) ++
        List.replicate (256 * n - (data.take (256 * n)).length) 0 := by
  intro n
  induction n with
  | zero => simp
  | succ n ih =>
    rw [List.range_succ, List.map_append, List.flatten_append, ih]
    simp only [List.map_cons, List.map_nil, List.flatten_cons,
      List.flatten_nil, List.append_nil]
    by_cases hc : data.length ≤ 256 * n
    · rw [List.take_of_length_le hc,
        List.take_of_length_le (show data.length ≤ 256 * (n + 1) by omega),
        List.drop_eq_nil_of_le hc]
      simp only [List.take_nil, List.length_nil, List.nil_append,
        Nat.sub_zero]
      rw [List.append_assoc, ← List.replicate_add,
        show 256 * n - data.length + 256 = 256 * (n + 1) - data.length from
          by omega]
    · push_neg at hc
      have h1 : (data.take (256 * n)).length = 256 * n := by
        rw [List.length_take]
        omega
      rw [h1, Nat.sub_self, List.replicate_zero, List.append_nil,
        show 256 * (n + 1) = 256 * n + 256 from by omega, List.take_add,
        List.length_append, h1, List.append_assoc]
      congr 3
      simp only [List.length_take, List.length_drop]
      omega

/-! ## Claim theorems: UF2 block stream (C2, C4, C5) -/

/-- Concrete one-block UF2 stream for the counterexample. -/
def uf2padW : List Nat := (uf2ify [7] 1 0).toOption.getD []

/-- C2 counterexample: each record is 512 bytes with the trailing magic at
offset 508, so the zero pad between the 256 data bytes (ending at offset
288) and the magic is 220 bytes; were the pad 224 bytes as the claim
states, the magic would sit at offset 512, outside the record. -/
theorem uf2_pad_is_220_not_224 :
    uf2ify [7] 1 0 = .ok uf2padW ∧
    uf2padW.length = 512 ∧
    (uf2padW.drop 288).take 220 = List.replicate 220 0 ∧
    uf2padW.drop 508 = u32le 0x0AB16F30 ∧
    ¬(uf2padW.drop (288 + 224)).take 4 = u32le 0x0AB16F30 := by
  refine ⟨by rfl, ?_, ?_, ?_, ?_⟩ <;> decide

/-- C2 (amended): every record of the block stream is exactly 512 bytes
laid out as the two magic words 0x0A324655 and 0x9E5D5157, the flags word,
the target address, payload_len 256, the block index, the total block
count, the family id, 256 data bytes, a 220-byte zero pad (not 224), and
the trailing magic 0x0AB16F30. -/
theorem uf2_record_layout (data : List Nat) (fam app : Nat) (out : List Nat)
    (n : Nat) (hn : n = (data.length + 255) / 256)
    (h : uf2ify data fam app = .ok out) :
    ∀ i, i < n →
      ((out.drop (512 * i)).take 512).length = 512 ∧
      (out.drop (512 * i)).take 512 =
        u32le 0x0A324655 ++ u32le 0x9E5D5157 ++
        u32le (if fam ≠ 0 then 0x2000 else 0) ++ u32le (256 * i + app) ++
        u32le 256 ++ u32le i ++ u32le n ++ u32le fam ++
        ((data.drop (256 * i)).take 256 ++
          List.replicate (256 - ((data.drop (256 * i)).take 256).length) 0) ++
        List.replicate 220 0 ++ u32le 0x0AB16F30 := by
  obtain ⟨-, hrec⟩ := uf2ify_records hn h
  intro i hi
  refine ⟨?_, hrec i hi⟩
  rw [hrec i hi]
  simp only [List.length_append, u32le_length, List.length_replicate,
    List.length_take, List.length_drop]
  omega

/-- One-block concrete UF2 stream for the witnesses. -/
def uf2outW : List Nat :=
  (uf2ify [1, 2, 3] BAOCHIP_1X_UF2_FAMILY BAREMETAL_START).toOption.getD []

theorem uf2_record_layout_witness :
    ((uf2outW.drop (512 * 0)).take 512).length = 512 :=
  (uf2_record_layout [1, 2, 3] BAOCHIP_1X_UF2_FAMILY BAREMETAL_START
    uf2outW 1 (by rfl) (by rfl) 0 (by decide)).1

/-- C4: the packer emits exactly ceil(L/256) blocks (the two inequality
conjuncts pin n = (L+255)/256 as the least n with 256*n at least L; zero
blocks when L = 0); every record carries payload_len 256, its own index i,
the common total count n and family id, target address app + 256*i, and
flags 0x2000 exactly when the family id is non-zero. -/
theorem uf2_block_invariants (data : List Nat) (fam app : Nat)
    (out : List Nat) (n : Nat) (hn : n = (data.length + 255) / 256)
    (h : uf2ify data fam app = .ok out) :
    out.length = 512 * n ∧
    data.length ≤ 256 * n ∧ 256 * n < data.length + 256 ∧
    (data.length = 0 → out = []) ∧
    ∀ i, i < n →
      (((out.drop (512 * i)).take 512).drop 8).take 4 =
        u32le (if fam ≠ 0 then 0x2000 else 0) ∧
      (((out.drop (512 * i)).take 512).drop 12).take 4 =
        u32le (app + 256 * i) ∧
      (((out.drop (512 * i)).take 512).drop 16).take 4 = u32le 256 ∧
      (((out.drop (512 * i)).take 512).drop 20).take 4 = u32le i ∧
      (((out.drop (512 * i)).take 512).drop 24).take 4 = u32le n ∧
      (((out.drop (512 * i)).take 512).drop 28).take 4 = u32le fam := by
  obtain ⟨hlen, hrec⟩ := uf2ify_records hn h
  have hceil1 : data.length ≤ 256 * n := by omega
  have hceil2 : 256 * n < data.length + 256 := by omega
  refine ⟨hlen, hceil1, hceil2, ?_, ?_⟩
  · intro h0
    have : out.length = 0 := by omega
    exact List.eq_nil_of_length_eq_zero this
  · intro i hi
    rw [hrec i hi]
    refine ⟨rfl, ?_, rfl, rfl, rfl, rfl⟩
    rw [Nat.add_comm app (256 * i)]
    rfl

theorem uf2_block_invariants_witness :
    uf2outW.length = 512 * 1 :=
  (uf2_block_invariants [1, 2, 3] BAOCHIP_1X_UF2_FAMILY BAREMETAL_START
    uf2outW 1 (by rfl) (by rfl)).1

/-- C5: concatenating the 256-byte data fields of all blocks in index
order and truncating to the input length reproduces the input exactly;
every block except possibly the last carries an unpadded full 256-byte
slice of the input. -/
theorem uf2_roundtrip (data : List Nat) (fam app : Nat) (out : List Nat)
    (n : Nat) (hn : n = (data.length + 255) / 256)
    (h : uf2ify data fam app = .ok out) :
    (((List.range n).map (fun i =>
        (((out.drop (512 * i)).take 512).drop 32).take 256)).flatten).take
      data.length = data ∧
    ∀ i, i + 1 < n →
      (((out.drop (512 * i)).take 512).drop 32).take 256 =
        (data.drop (256 * i)).take 256 ∧
      ((data.drop (256 * i)).take 256).length = 256 := by
  obtain ⟨-, hrec⟩ := uf2ify_records hn h
  have hfield : ∀ i, i < n →
      (((out.drop (512 * i)).take 512).drop 32).take 256 =
        (data.drop (256 * i)).take 256 ++
        List.replicate (256 - ((data.drop (256 * i)).take 256).length) 0 := by
    intro i hi
    rw [hrec i hi]
    have e32 : ((u32le UF2_MAGIC_START0 ++ u32le UF2_MAGIC_START1 ++
        u32le (if fam ≠ 0 then 0x2000 else 0) ++ u32le (256 * i + app) ++
        u32le 256 ++ u32le i ++ u32le n ++ u32le fam ++
        ((data.drop (256 * i)).take 256 ++
          List.replicate (256 - ((data.drop (256 * i)).take 256).length) 0) ++
        List.replicate 220 0 ++ u32le UF2_MAGIC_END).drop 32) =
        (((data.drop (256 * i)).take 256 ++
          List.replicate (256 - ((data.drop (256 * i)).take 256).length) 0) ++
        List.replicate 220 0) ++ u32le UF2_MAGIC_END := rfl
    rw [e32, List.append_assoc,
      List.take_left' (chunk_pad_length data (256 * i))]
  constructor
  · rw [List.map_congr_left (fun i hi =>
      hfield i (by rw [List.mem_range] at hi; exact hi)),
      chunks_flatten data n,
      List.take_of_length_le (show data.length ≤ 256 * n by omega)]
    exact List.take_left data (List.replicate (256 * n - data.length) 0)
  · intro i hi1
    have hclen : ((data.drop (256 * i)).take 256).length = 256 := by
      simp only [List.length_take, List.length_drop]
      omega
    refine ⟨?_, hclen⟩
    rw [hfield i (by omega), hclen]
    simp

theorem uf2_roundtrip_witness :
    (((List.range 1).map (fun i =>
        (((uf2outW.drop (512 * i)).take 512).drop 32).take 256)).flatten).take
      ([1, 2, 3] : List Nat).length = [1, 2, 3] :=
  (uf2_roundtrip [1, 2, 3] BAOCHIP_1X_UF2_FAMILY BAREMETAL_START uf2outW 1
    (by rfl) (by rfl)).1

end Dabao
